import Mathlib

/-!
Verification of the Deribit trader middleware core against its design
specification. The development shallowly embeds the three core components
(order/position registry in `order_manager.cpp`, order-book cache in
`market_data.cpp`, subscription broker in `websocket_server.cpp`) as pure
Lean functions over explicit state. C++ `double` fields are modelled as `ℚ`
(the code only stores and compares them, never computes with them), clock
reads (`std::chrono::system_clock::now().time_since_epoch().count()`) are
modelled as an explicit `now : ℕ` parameter, and results of external
exchange calls are passed in as parameters. JSON payloads are modelled as
the record of fields the code extracts; an extraction that would throw in
the C++ (`json::get` on an absent or mistyped field) is modelled as the
corresponding `Option` being `none`, and since every `catch` block in the
code only logs, a throw before the first mutation leaves the state
unchanged, exactly as the embedding does.
-/

namespace DeribitTrader

/-! ## Order registry (`order_manager.cpp`, `order_manager.h`)

The order table `std::map<std::string, Order> orders_` is modelled as a
total function `String → Option Order` (map lookup-miss = `none`;
`operator[]` insert/overwrite = pointwise function update). -/

/-- Mirrors `Order::Side` from `order_manager.h`. -/
inductive Side where
  | BUY
  | SELL
deriving DecidableEq, Repr

/-- Mirrors `Order::Type` from `order_manager.h`. -/
inductive OType where
  | LIMIT
  | MARKET
deriving DecidableEq, Repr

/-- Mirrors `Order::Status` from `order_manager.h`. -/
inductive OrderStatus where
  | PENDING
  | OPEN
  | FILLED
  | PARTIALLY_FILLED
  | CANCELLED
  | REJECTED
deriving DecidableEq, Repr

/-- Mirrors `struct Order` from `order_manager.h`. `double` fields are `ℚ`,
`int64_t` timestamps are `ℕ`. The C++ in-class initializers are
`filled_amount = 0.0` and `status = Status::PENDING`; the remaining fields
have no initializer and are always assigned before use on the paths the
claims cover. -/
structure Order where
  order_id : String
  instrument : String
  side : Side
  type : OType
  price : ℚ
  amount : ℚ
  filled_amount : ℚ
  status : OrderStatus
  error_message : String
  creation_timestamp : ℕ
  last_update_timestamp : ℕ
deriving DecidableEq, Repr

/-- The `orders_` table of `OrderManager`. -/
abbrev OrdersMap := String → Option Order

/-- Mirrors `OrderManager::placeOrder` (`order_manager.cpp:19-56`). The
synchronous `api_client_->placeOrder` call's response is ignored by the
code (the local id is minted from the clock), so the embedding takes only
the clock reading `now`. Returns the updated table and the returned id. -/
def placeOrder (orders : OrdersMap) (instrument : String) (side : Side)
    (price : ℚ) (amount : ℚ) (type : OType) (now : ℕ) :
    OrdersMap × String :=
  let order_id := "order_" ++ toString now
  let order : Order :=
    { order_id := order_id
      instrument := instrument
      side := side
      type := type
      price := price
      amount := amount
      filled_amount := 0
      status := OrderStatus.OPEN
      error_message := ""
      creation_timestamp := now
      last_update_timestamp := now }
  (fun k => if k = order_id then some order else orders k, order_id)

/-- Mirrors `OrderManager::cancelOrder` (`order_manager.cpp:58-72`).
`success` is the boolean returned by the external
`api_client_->cancelOrder` call; `now` is the clock reading taken when the
order record is updated. Returns the updated table and the returned
boolean. -/
def cancelOrder (orders : OrdersMap) (order_id : String) (success : Bool)
    (now : ℕ) : OrdersMap × Bool :=
  if success then
    match orders order_id with
    | some o =>
        (fun k =>
          if k = order_id then
            some { o with
                    status := OrderStatus.CANCELLED
                    last_update_timestamp := now }
          else orders k,
         success)
    | none => (orders, success)
  else (orders, success)

/-- Mirrors `OrderManager::getOrder` (`order_manager.cpp:129-141`). On a
lookup miss the C++ default-constructs an `Order` (so `filled_amount = 0`,
`status = PENDING` from the in-class initializers; `side`, `type`,
`price`, `amount` and the timestamps are indeterminate and are modelled by
arbitrary fixed values no claim depends on), then sets `order_id`,
`status = REJECTED` and the error message. -/
def getOrder (orders : OrdersMap) (order_id : String) : Order :=
  match orders order_id with
  | some o => o
  | none =>
      { order_id := order_id
        instrument := ""
        side := Side.BUY
        type := OType.LIMIT
        price := 0
        amount := 0
        filled_amount := 0
        status := OrderStatus.REJECTED
        error_message := "Order not found"
        creation_timestamp := 0
        last_update_timestamp := 0 }

/-- The fields `OrderManager::onOrderUpdate` extracts from the update
JSON. A field is `none` when it is absent or mistyped, in which case the
corresponding `json::get` throws in the C++; a payload that fails
`json::parse` altogether is modelled as a message whose extracted fields
are all `none` (either way the `catch` fires before any mutation). -/
structure OrderUpdateMsg where
  order_id : Option String
  state : Option String
  filled_amount : Option ℚ
  error : Option String
deriving DecidableEq, Repr

/-- Mirrors `OrderManager::onOrderUpdate` (`order_manager.cpp:148-184`).
The three `get` extractions (`order_id`, `state`, `filled_amount`) all run
before any mutation, so if any is `none` the table is returned unchanged
(the C++ exception is caught and logged). For a known id the code
overwrites `filled_amount` and the update timestamp, then runs the status
chain: the four recognized strings map to their statuses (`rejected` also
copying an `error` field when present), any other string falls through to
the partial-fill inference `0 < filled_amount < order.amount`. An unknown
id leaves the table untouched. -/
def onOrderUpdate (orders : OrdersMap) (msg : OrderUpdateMsg) (now : ℕ) :
    OrdersMap :=
  match msg.order_id, msg.state, msg.filled_amount with
  | some order_id, some state, some filled_amount =>
      match orders order_id with
      | some o =>
          let status :=
            if state = "open" then OrderStatus.OPEN
            else if state = "filled" then OrderStatus.FILLED
            else if state = "cancelled" then OrderStatus.CANCELLED
            else if state = "rejected" then OrderStatus.REJECTED
            else if 0 < filled_amount ∧ filled_amount < o.amount then
              OrderStatus.PARTIALLY_FILLED
            else o.status
          let error_message :=
            if state = "rejected" then
              match msg.error with
              | some e => e
              | none => o.error_message
            else o.error_message
          fun k =>
            if k = order_id then
              some { o with
                      filled_amount := filled_amount
                      last_update_timestamp := now
                      status := status
                      error_message := error_message }
            else orders k
      | none => orders
  | _, _, _ => orders

/-- One element of the position-update JSON array: `good` when both
`instrument_name` and `size` extract, `bad` when a `get` throws (which
aborts the repopulation loop mid-way). -/
inductive PosEntry where
  | good (instrument_name : String) (size : ℚ)
  | bad
deriving DecidableEq, Repr

/-- The `positions_` table `std::map<std::string, double>`, modelled as an
association list (insertion-ordered; `std::map` key order does not affect
any claimed observation). -/
abbrev Positions := List (String × ℚ)

/-- Mirrors `positions_[instrument] = size` (`std::map::operator[]` then
assignment): overwrite the existing entry for the key, else append. -/
def posInsert (ps : Positions) (instrument : String) (size : ℚ) :
    Positions :=
  if ps.any (fun p => p.1 == instrument) then
    ps.map (fun p => if p.1 == instrument then (instrument, size) else p)
  else ps ++ [(instrument, size)]

/-- The repopulation loop of `onPositionUpdate`: inserts each good entry in
order; a `bad` entry throws, leaving the table as accumulated so far. -/
def applyPosEntries : Positions → List PosEntry → Positions
  | ps, [] => ps
  | ps, PosEntry.good i s :: rest => applyPosEntries (posInsert ps i s) rest
  | ps, PosEntry.bad :: _ => ps

/-- A position-update payload: `malformed` when `json::parse` throws or the
parsed value is not an array (both leave the table untouched — the
`is_array` guard wraps the clear), `snapshot` for an array of entries. -/
inductive PositionMsg where
  | malformed
  | snapshot (entries : List PosEntry)
deriving DecidableEq, Repr

/-- Mirrors `OrderManager::onPositionUpdate` (`order_manager.cpp:186-205`):
on an array payload, `positions_.clear()` then repopulate from the
entries. -/
def onPositionUpdate (ps : Positions) (msg : PositionMsg) : Positions :=
  match msg with
  | PositionMsg.malformed => ps
  | PositionMsg.snapshot entries => applyPosEntries [] entries

/-! ## Order-book cache (`market_data.cpp`, `market_data.h`)

The book table `std::map<std::string, Orderbook> orderbooks_` is modelled
as a total function `String → Option Orderbook`; the subscription list
`std::vector<std::string> subscriptions_` as a `List String`. -/

/-- Mirrors `Orderbook::Level` from `market_data.h`. -/
structure Level where
  price : ℚ
  size : ℚ
deriving DecidableEq, Repr

/-- Mirrors `struct Orderbook` from `market_data.h` (`int64_t timestamp`
as `ℕ`). -/
structure Orderbook where
  instrument : String
  bids : List Level
  asks : List Level
  timestamp : ℕ
deriving DecidableEq, Repr

/-- The `orderbooks_` table of `MarketDataClient`. -/
abbrev BookMap := String → Option Orderbook

/-- The state of `MarketDataClient` the claims touch: the subscription
list and the book table. -/
structure MDState where
  subscriptions : List String
  orderbooks : BookMap

/-- Mirrors `MarketDataClient::getOrderbook` (`market_data.cpp:112-122`).
On a lookup miss the C++ default-constructs an `Orderbook`, tags it with
the queried instrument and returns it: the level vectors are empty and the
`int64_t timestamp` is indeterminate (modelled as 0; no claim depends on
it). The method is `const`: it is a pure query and never mutates the
cache. -/
def getOrderbook (books : BookMap) (instrument : String) : Orderbook :=
  match books instrument with
  | some b => b
  | none => { instrument := instrument, bids := [], asks := [], timestamp := 0 }

/-- One element of a raw `bids`/`asks` JSON array: `good` when it is an
array of length ≥ 2 (the code reads elements 0 and 1 as price and size),
`skipped` when the `bid.is_array() && bid.size() >= 2` guard rejects it
(the code silently skips such an element). -/
inductive LevelEntry where
  | good (price : ℚ) (size : ℚ)
  | skipped
deriving DecidableEq, Repr

/-- The level-collection loop of `processMessage`: keeps the good entries
in order, drops the skipped ones. -/
def collectLevels : List LevelEntry → List Level
  | [] => []
  | LevelEntry.good p s :: rest => { price := p, size := s } :: collectLevels rest
  | LevelEntry.skipped :: rest => collectLevels rest

/-- Mirrors `channel.find("book.") == 0` on the channel string. -/
def startsWithBook (channel : String) : Bool :=
  decide (channel.data.take 5 = ("book.").data)

/-- Helper for `extractInstrument`: the characters before the first `'.'`
(the whole list when there is none), i.e. `substr(0, find("."))` with the
`npos` fallback. -/
def takeUntilDot : List Char → List Char
  | [] => []
  | c :: cs => if c = '.' then [] else c :: takeUntilDot cs

/-- Mirrors the instrument extraction of `processMessage`
(`market_data.cpp:141-145`): `channel.substr(5)`, then truncate at the
first `'.'` if any. -/
def extractInstrument (channel : String) : String :=
  String.mk (takeUntilDot (channel.data.drop 5))

/-- A raw streaming message as classified by `processMessage`:
`malformed` when `json::parse` or a later numeric extraction throws (the
`catch` logs and nothing has been stored, since the store happens after
both level loops); `other` when it parses but is not a
`method == "subscription"` message carrying `params.channel`; `sub` for a
subscription notification with its channel string and the elements of
`params.data.bids` / `params.data.asks` (both empty when the `data`
object or the respective array is absent — `contains` on the null
`data["params"]["data"]` returns false). -/
inductive MDMessage where
  | malformed
  | other
  | sub (channel : String) (bids : List LevelEntry) (asks : List LevelEntry)
deriving DecidableEq, Repr

/-- Mirrors `MarketDataClient::processMessage` (`market_data.cpp:128-194`)
with the clock reading `now` explicit. Returns the updated state together
with the `Orderbook` handed to `orderbook_callback_` (`none` when the
callback is not invoked). Only channels matching `book.*` are processed;
the subscription list is never consulted or changed. -/
def processMessage (s : MDState) (msg : MDMessage) (now : ℕ) :
    MDState × Option Orderbook :=
  match msg with
  | MDMessage.malformed => (s, none)
  | MDMessage.other => (s, none)
  | MDMessage.sub channel bids asks =>
      if startsWithBook channel then
        let instrument := extractInstrument channel
        let book : Orderbook :=
          { instrument := instrument
            bids := collectLevels bids
            asks := collectLevels asks
            timestamp := now }
        ({ s with
            orderbooks := fun k =>
              if k = instrument then some book else s.orderbooks k },
         some book)
      else (s, none)

/-! ## Subscription broker (`websocket_server.cpp`, `websocket_server.h`)

`client_subscriptions_` and `instrument_subscribers_` are both
`std::map<std::string, std::set<std::string>>`. Each is modelled as a
total function `String → Finset String`: a map lookup-miss and an entry
holding the empty set are observationally identical in every modelled
operation (`getSubscriptions` returns `{}` on a miss, a broadcast snapshot
of a missing entry is empty, and the guarded `erase` calls are no-ops on a
missing entry), so both are modelled as `∅`. Connections are referred to
by their id string (`client->getId()`). -/

/-- The two mirrored subscription indexes of `WebSocketServer`. -/
structure SubState where
  client_subscriptions : String → Finset String
  instrument_subscribers : String → Finset String

/-- The broker's initial state: both indexes empty. -/
def SubState.empty : SubState :=
  { client_subscriptions := fun _ => ∅
    instrument_subscribers := fun _ => ∅ }

/-- Mirrors `WebSocketServer::addSubscription`
(`websocket_server.cpp:408-423`): insert the instrument into the client's
forward entry and the client into the instrument's reverse entry (both via
`operator[]`, which creates a missing entry). -/
def addSubscription (s : SubState) (client_id : String) (instrument : String) :
    SubState :=
  { client_subscriptions := fun c =>
      if c = client_id then insert instrument (s.client_subscriptions client_id)
      else s.client_subscriptions c
    instrument_subscribers := fun i =>
      if i = instrument then insert client_id (s.instrument_subscribers instrument)
      else s.instrument_subscribers i }

/-- Mirrors `WebSocketServer::removeSubscription`
(`websocket_server.cpp:425-449`): erase the instrument from the client's
forward entry and the client from the instrument's reverse entry (each
guarded by a `find`; the reverse entry is dropped when it becomes empty,
which under the empty-entry-is-`∅` modelling is invisible). -/
def removeSubscription (s : SubState) (client_id : String)
    (instrument : String) : SubState :=
  { client_subscriptions := fun c =>
      if c = client_id then (s.client_subscriptions client_id).erase instrument
      else s.client_subscriptions c
    instrument_subscribers := fun i =>
      if i = instrument then (s.instrument_subscribers instrument).erase client_id
      else s.instrument_subscribers i }

/-- Mirrors `WebSocketServer::removeAllSubscriptions`
(`websocket_server.cpp:451-478`): read the client's forward entry, erase
that entry, then erase the client from the reverse entry of exactly the
instruments that were in it (each guarded by a `find`, empty reverse
entries dropped). -/
def removeAllSubscriptions (s : SubState) (client_id : String) : SubState :=
  { client_subscriptions := fun c =>
      if c = client_id then ∅ else s.client_subscriptions c
    instrument_subscribers := fun i =>
      if i ∈ s.client_subscriptions client_id then
        (s.instrument_subscribers i).erase client_id
      else s.instrument_subscribers i }

/-- Mirrors `WebSocketServer::getSubscriptions`
(`websocket_server.cpp:480-489`): the client's forward entry, `{}` on a
miss. -/
def getSubscriptions (s : SubState) (client_id : String) : Finset String :=
  s.client_subscriptions client_id

/-- Mirrors `WebSocketServer::broadcastToSubscribers`
(`websocket_server.cpp:367-392`), returning the set of client ids the
message is sent to: snapshot the instrument's subscriber ids, then keep
those that resolve in the `clients_` connection table (here the `Finset`
of live client ids); `send` is then called once for each survivor, and an
id missing from the table is silently skipped. -/
def broadcastToSubscribers (s : SubState) (clients : Finset String)
    (instrument : String) : Finset String :=
  (s.instrument_subscribers instrument).filter (fun c => c ∈ clients)

/-- One mutating call on the subscription indexes, for reasoning about
arbitrary call sequences. -/
inductive SubOp where
  | add (client_id : String) (instrument : String)
  | remove (client_id : String) (instrument : String)
  | removeAll (client_id : String)

/-- Applies one subscription call. -/
def applySubOp (s : SubState) : SubOp → SubState
  | SubOp.add c i => addSubscription s c i
  | SubOp.remove c i => removeSubscription s c i
  | SubOp.removeAll c => removeAllSubscriptions s c

/-- The broker state after a sequence of subscription calls starting from
the empty (freshly constructed) broker. -/
def runSubOps (ops : List SubOp) : SubState :=
  ops.foldl applySubOp SubState.empty

/-- The mirrored-index agreement invariant: a pair (connection, instrument)
is in the forward index iff the connection is in the instrument's reverse
entry. -/
def indexesAgree (s : SubState) : Prop :=
  ∀ c i, i ∈ s.client_subscriptions c ↔ c ∈ s.instrument_subscribers i

/-! ## Concrete fixtures used by the witness and counterexample theorems -/

/-- A concrete open order (used to exercise `onOrderUpdate`). -/
def ordFix1 : Order :=
  { order_id := "o1"
    instrument := "BTC-PERPETUAL"
    side := Side.BUY
    type := OType.LIMIT
    price := 50000
    amount := 2
    filled_amount := 0
    status := OrderStatus.OPEN
    error_message := ""
    creation_timestamp := 1
    last_update_timestamp := 1 }

/-- A one-order table holding `ordFix1`. -/
def ordersFix1 : OrdersMap := fun k => if k = "o1" then some ordFix1 else none

/-- A concrete fully-filled order (used to exercise `cancelOrder` on an
already filled order). -/
def ordFix2 : Order :=
  { order_id := "order_3"
    instrument := "BTC-PERPETUAL"
    side := Side.SELL
    type := OType.LIMIT
    price := 50000
    amount := 2
    filled_amount := 2
    status := OrderStatus.FILLED
    error_message := ""
    creation_timestamp := 3
    last_update_timestamp := 4 }

/-- A one-order table holding `ordFix2`. -/
def ordersFix2 : OrdersMap := fun k => if k = "order_3" then some ordFix2 else none

/-! ## Helper lemmas: the mirrored-index invariant -/

/-- The freshly constructed broker has agreeing (empty) indexes. -/
theorem indexesAgree_empty : indexesAgree SubState.empty := by
  intro c i
  simp [SubState.empty]

/-- Mirrored-index agreement is preserved by `addSubscription`. -/
theorem indexesAgree_addSubscription (s : SubState) (c i : String)
    (h : indexesAgree s) : indexesAgree (addSubscription s c i) := by
  intro c' i'
  simp only [addSubscription]
  by_cases hc : c' = c <;> by_cases hi : i' = i <;>
    simp [hc, hi, Finset.mem_insert, h c' i', h c' i, h c i']

/-- Mirrored-index agreement is preserved by `removeSubscription`. -/
theorem indexesAgree_removeSubscription (s : SubState) (c i : String)
    (h : indexesAgree s) : indexesAgree (removeSubscription s c i) := by
  intro c' i'
  simp only [removeSubscription]
  by_cases hc : c' = c <;> by_cases hi : i' = i <;>
    simp [hc, hi, Finset.mem_erase, h c' i', h c' i, h c i']

/-- Mirrored-index agreement is preserved by `removeAllSubscriptions`. -/
theorem indexesAgree_removeAllSubscriptions (s : SubState) (c : String)
    (h : indexesAgree s) : indexesAgree (removeAllSubscriptions s c) := by
  intro c' i'
  simp only [removeAllSubscriptions]
  by_cases hc : c' = c
  · subst hc
    by_cases hm : i' ∈ s.client_subscriptions c'
    · simp [hm]
    · simp [hm, ← h c' i']
  · by_cases hm : i' ∈ s.client_subscriptions c
    · simp [hc, hm, Finset.mem_erase, h c' i']
    · simp [hc, hm, h c' i']

/-- Mirrored-index agreement is preserved by any call sequence. -/
theorem indexesAgree_foldl (ops : List SubOp) (s : SubState)
    (h : indexesAgree s) : indexesAgree (ops.foldl applySubOp s) := by
  induction ops generalizing s with
  | nil => exact h
  | cons op rest ih =>
      cases op with
      | add c i => exact ih _ (indexesAgree_addSubscription s c i h)
      | remove c i => exact ih _ (indexesAgree_removeSubscription s c i h)
      | removeAll c => exact ih _ (indexesAgree_removeAllSubscriptions s c h)

/-- Every state reachable from the fresh broker has agreeing indexes. -/
theorem indexesAgree_runSubOps (ops : List SubOp) :
    indexesAgree (runSubOps ops) :=
  indexesAgree_foldl ops SubState.empty indexesAgree_empty

/-- C1: for every sequence of `addSubscription` / `removeSubscription` /
`removeAllSubscriptions` calls starting from the fresh broker, the two
mirrored indexes agree (a pair (c, i) is in the forward index iff c is in
i's reverse entry); moreover, from any reachable state, after
`addSubscription c i` the set `getSubscriptions c` contains i, and after
`removeAllSubscriptions c` the set `getSubscriptions c` is empty and no
instrument's reverse entry contains c. -/
theorem subscription_indexes_always_agree (ops : List SubOp) (c i : String) :
    indexesAgree (runSubOps ops) ∧
    i ∈ getSubscriptions (addSubscription (runSubOps ops) c i) c ∧
    getSubscriptions (removeAllSubscriptions (runSubOps ops) c) c = ∅ ∧
    ∀ i', c ∉ (removeAllSubscriptions (runSubOps ops) c).instrument_subscribers i' := by
  have hagree := indexesAgree_runSubOps ops
  refine ⟨hagree, ?_, ?_, ?_⟩
  · simp [getSubscriptions, addSubscription]
  · simp [getSubscriptions, removeAllSubscriptions]
  · intro i'
    simp only [removeAllSubscriptions]
    by_cases hm : i' ∈ (runSubOps ops).client_subscriptions c
    · simp [hm]
    · simp [hm, ← hagree c i']

/-- C7: a connection id receives a `broadcastToSubscribers instrument`
message iff it is in the instrument's subscriber set and resolves in the
connection table; in particular an unsubscribed connection never receives
it, and a subscribed id whose connection has vanished from the table is
silently skipped. -/
theorem broadcastToSubscribers_exact (s : SubState) (clients : Finset String)
    (instrument : String) (c : String) :
    c ∈ broadcastToSubscribers s clients instrument ↔
      c ∈ s.instrument_subscribers instrument ∧ c ∈ clients := by
  simp [broadcastToSubscribers]

/-- C5: `placeOrder` issues the placement call, mints the local id from the
clock, records the new order and returns that id; the order is immediately
retrievable by the returned id as exactly the OPEN order with the
requested price and amount and filled amount 0. -/
theorem placeOrder_immediately_retrievable (orders : OrdersMap)
    (instrument : String) (side : Side) (price amount : ℚ) (type : OType)
    (now : ℕ) :
    (placeOrder orders instrument side price amount type now).2 =
      "order_" ++ toString now ∧
    getOrder (placeOrder orders instrument side price amount type now).1
        ((placeOrder orders instrument side price amount type now).2) =
      { order_id := "order_" ++ toString now
        instrument := instrument
        side := side
        type := type
        price := price
        amount := amount
        filled_amount := 0
        status := OrderStatus.OPEN
        error_message := ""
        creation_timestamp := now
        last_update_timestamp := now } := by
  constructor
  · rfl
  · simp [placeOrder, getOrder]

/-- C3: when the exchange cancel call reports success, `cancelOrder`
unconditionally sets the order's status to CANCELLED (whatever its prior
status and fill state, including fully filled) and moves its update
timestamp to the clock reading, which is ≥ the creation timestamp whenever
the clock has not gone backwards since the order was created. -/
theorem cancelOrder_success_cancels (orders : OrdersMap) (order_id : String)
    (o : Order) (now : ℕ)
    (hfound : orders order_id = some o)
    (hclock : o.creation_timestamp ≤ now) :
    (cancelOrder orders order_id true now).2 = true ∧
    (cancelOrder orders order_id true now).1 order_id =
      some { o with status := OrderStatus.CANCELLED
                    last_update_timestamp := now } ∧
    (getOrder (cancelOrder orders order_id true now).1 order_id).status =
      OrderStatus.CANCELLED ∧
    (getOrder (cancelOrder orders order_id true now).1 order_id).creation_timestamp ≤
      (getOrder (cancelOrder orders order_id true now).1 order_id).last_update_timestamp := by
  refine ⟨?_, ?_, ?_, ?_⟩ <;>
    simp [cancelOrder, hfound, getOrder, hclock]

/-- Witness for C3 at a concrete, already fully-filled order. -/
theorem cancelOrder_success_cancels_witness :
    ordersFix2 "order_3" = some ordFix2 ∧
    ordFix2.creation_timestamp ≤ 9 ∧
    ((cancelOrder ordersFix2 "order_3" true 9).2 = true ∧
     (cancelOrder ordersFix2 "order_3" true 9).1 "order_3" =
       some { ordFix2 with status := OrderStatus.CANCELLED
                           last_update_timestamp := 9 } ∧
     (getOrder (cancelOrder ordersFix2 "order_3" true 9).1 "order_3").status =
       OrderStatus.CANCELLED ∧
     (getOrder (cancelOrder ordersFix2 "order_3" true 9).1 "order_3").creation_timestamp ≤
       (getOrder (cancelOrder ordersFix2 "order_3" true 9).1 "order_3").last_update_timestamp) :=
  ⟨by decide, by decide,
   cancelOrder_success_cancels ordersFix2 "order_3" ordFix2 9 (by decide) (by decide)⟩

/-- Counterexample to C2 as stated: for the known order `"o1"` (amount 2,
status OPEN) and an update whose `state` field is absent while the carried
filled amount satisfies 0 < 1 < 2, the claim demands status
PARTIALLY_FILLED, but `onOrderUpdate` leaves the order table entirely
unchanged — the `get<std::string>` on the absent `state` field throws
before any mutation and the exception is swallowed — so the status stays
OPEN. -/
theorem onOrderUpdate_absent_state_counterexample :
    (0 : ℚ) < 1 ∧ (1 : ℚ) < ordFix1.amount ∧
    ordersFix1 "o1" = some ordFix1 ∧
    onOrderUpdate ordersFix1
      { order_id := some "o1", state := none, filled_amount := some 1,
        error := none } 7 = ordersFix1 ∧
    (getOrder (onOrderUpdate ordersFix1
      { order_id := some "o1", state := none, filled_amount := some 1,
        error := none } 7) "o1").status = OrderStatus.OPEN ∧
    OrderStatus.OPEN ≠ OrderStatus.PARTIALLY_FILLED := by
  refine ⟨by decide, by decide, by decide, rfl, by decide, by decide⟩

/-- C2 (amended): for a known order id, `onOrderUpdate` maps a status
string in {open, filled, cancelled, rejected} to the matching internal
state, with `rejected` recording a carried error message; if the status
string is present but lies outside that set and 0 < filled < requested
amount, it sets PARTIALLY_FILLED; an update whose status field is absent
is dropped entirely (the extraction throws before any mutation); and an
update for an unknown id leaves the order table entirely unchanged. -/
theorem onOrderUpdate_status_mapping (orders : OrdersMap) (oid st : String)
    (fa : ℚ) (err : Option String) (now : ℕ) (o : Order)
    (hfound : orders oid = some o) :
    (st = "open" →
      onOrderUpdate orders ⟨some oid, some st, some fa, err⟩ now oid =
        some { o with filled_amount := fa, last_update_timestamp := now,
                      status := OrderStatus.OPEN }) ∧
    (st = "filled" →
      onOrderUpdate orders ⟨some oid, some st, some fa, err⟩ now oid =
        some { o with filled_amount := fa, last_update_timestamp := now,
                      status := OrderStatus.FILLED }) ∧
    (st = "cancelled" →
      onOrderUpdate orders ⟨some oid, some st, some fa, err⟩ now oid =
        some { o with filled_amount := fa, last_update_timestamp := now,
                      status := OrderStatus.CANCELLED }) ∧
    (st = "rejected" →
      onOrderUpdate orders ⟨some oid, some st, some fa, err⟩ now oid =
        some { o with filled_amount := fa, last_update_timestamp := now,
                      status := OrderStatus.REJECTED,
                      error_message := err.getD o.error_message }) ∧
    (st ≠ "open" → st ≠ "filled" → st ≠ "cancelled" → st ≠ "rejected" →
      0 < fa → fa < o.amount →
      onOrderUpdate orders ⟨some oid, some st, some fa, err⟩ now oid =
        some { o with filled_amount := fa, last_update_timestamp := now,
                      status := OrderStatus.PARTIALLY_FILLED }) ∧
    (onOrderUpdate orders ⟨some oid, none, some fa, err⟩ now = orders) ∧
    (∀ orders2 : OrdersMap, orders2 oid = none →
      onOrderUpdate orders2 ⟨some oid, some st, some fa, err⟩ now = orders2) := by
  refine ⟨?_, ?_, ?_, ?_, ?_, rfl, ?_⟩
  · intro h; subst h; simp [onOrderUpdate, hfound]
  · intro h; subst h; simp [onOrderUpdate, hfound]
  · intro h; subst h; simp [onOrderUpdate, hfound]
  · intro h; subst h
    cases err <;> simp [onOrderUpdate, hfound, Option.getD]
  · intro h1 h2 h3 h4 h5 h6
    simp [onOrderUpdate, hfound, h1, h2, h3, h4, h5, h6]
  · intro orders2 hnone
    simp [onOrderUpdate, hnone]

/-- Witness for the amended C2, exercising the `"filled"` branch on a
concrete known order. -/
theorem onOrderUpdate_status_mapping_witness :
    ordersFix1 "o1" = some ordFix1 ∧
    ("filled" = "filled" →
      onOrderUpdate ordersFix1 ⟨some "o1", some "filled", some 2, none⟩ 9 "o1" =
        some { ordFix1 with filled_amount := 2, last_update_timestamp := 9,
                            status := OrderStatus.FILLED }) :=
  ⟨by decide,
   (onOrderUpdate_status_mapping ordersFix1 "o1" "filled" 2 none 9 ordFix1
      (by decide)).2.1⟩

/-- C9: for a known order id and a parseable update whose status string is
outside {open, filled, cancelled, rejected}, `onOrderUpdate` still
overwrites the order's filled amount and sets its update timestamp to the
clock reading; the status becomes PARTIALLY_FILLED exactly when
0 < filled < requested amount and is untouched otherwise, every other
field is untouched (the record-update equality), and every other table
entry is untouched. -/
theorem onOrderUpdate_unrecognized_status_frame (orders : OrdersMap)
    (oid st : String) (fa : ℚ) (err : Option String) (now : ℕ) (o : Order)
    (hfound : orders oid = some o)
    (h1 : st ≠ "open") (h2 : st ≠ "filled") (h3 : st ≠ "cancelled")
    (h4 : st ≠ "rejected") :
    onOrderUpdate orders ⟨some oid, some st, some fa, err⟩ now oid =
      some { o with
              filled_amount := fa
              last_update_timestamp := now
              status :=
                if 0 < fa ∧ fa < o.amount then OrderStatus.PARTIALLY_FILLED
                else o.status } ∧
    ∀ k, k ≠ oid →
      onOrderUpdate orders ⟨some oid, some st, some fa, err⟩ now k = orders k := by
  constructor
  · simp [onOrderUpdate, hfound, h1, h2, h3, h4]
  · intro k hk
    simp [onOrderUpdate, hfound, hk]

/-- Witness for C9 with the unrecognized status string `"untriggered"` and
a partial fill 0 < 1 < 2. -/
theorem onOrderUpdate_unrecognized_status_frame_witness :
    ordersFix1 "o1" = some ordFix1 ∧
    ("untriggered" ≠ "open" ∧ "untriggered" ≠ "filled" ∧
     "untriggered" ≠ "cancelled" ∧ "untriggered" ≠ "rejected") ∧
    (onOrderUpdate ordersFix1 ⟨some "o1", some "untriggered", some 1, none⟩ 8 "o1" =
      some { ordFix1 with
              filled_amount := 1
              last_update_timestamp := 8
              status :=
                if 0 < (1 : ℚ) ∧ (1 : ℚ) < ordFix1.amount then
                  OrderStatus.PARTIALLY_FILLED
                else ordFix1.status } ∧
     ∀ k, k ≠ "o1" →
       onOrderUpdate ordersFix1 ⟨some "o1", some "untriggered", some 1, none⟩ 8 k =
         ordersFix1 k) :=
  ⟨by decide, ⟨by decide, by decide, by decide, by decide⟩,
   onOrderUpdate_unrecognized_status_frame ordersFix1 "o1" "untriggered" 1 none 8
     ordFix1 (by decide) (by decide) (by decide) (by decide) (by decide)⟩

/-- Inserting a key not yet in the table appends the pair. -/
theorem posInsert_of_notMem (ps : Positions) (i : String) (sz : ℚ)
    (h : i ∉ ps.map Prod.fst) : posInsert ps i sz = ps ++ [(i, sz)] := by
  have hany : ps.any (fun p => p.1 == i) = false := by
    simp only [List.any_eq_false, beq_iff_eq]
    intro p hp hpi
    exact h (hpi ▸ List.mem_map_of_mem Prod.fst hp)
  simp [posInsert, hany]

/-- Repopulating with well-formed entries over pairwise-distinct keys that
are also fresh for the accumulator appends them all in order. -/
theorem applyPosEntries_good (pairs : List (String × ℚ)) (ps : Positions)
    (hnd : (pairs.map Prod.fst).Nodup)
    (hdisj : ∀ i ∈ pairs.map Prod.fst, i ∉ ps.map Prod.fst) :
    applyPosEntries ps (pairs.map fun p => PosEntry.good p.1 p.2) =
      ps ++ pairs := by
  induction pairs generalizing ps with
  | nil => simp [applyPosEntries]
  | cons hd tl ih =>
      obtain ⟨i, sz⟩ := hd
      simp only [List.map_cons] at hnd hdisj
      rw [List.nodup_cons] at hnd
      obtain ⟨hi, htl⟩ := hnd
      have hdisj' : ∀ j ∈ tl.map Prod.fst, j ∉ (ps ++ [(i, sz)]).map Prod.fst := by
        intro j hj
        simp only [List.map_append, List.mem_append, List.map_cons, List.map_nil,
          List.mem_singleton, not_or]
        exact ⟨hdisj j (List.mem_cons_of_mem i hj), fun hji => hi (hji ▸ hj)⟩
      simp only [List.map_cons, applyPosEntries]
      rw [posInsert_of_notMem ps i sz (hdisj i (List.mem_cons_self i _)),
        ih (ps ++ [(i, sz)]) htl hdisj', List.append_assoc]
      simp

/-- C6: `onPositionUpdate` treats an array payload as a full snapshot: for
any prior table and any snapshot of well-formed entries with pairwise
distinct instruments, the position table afterwards is exactly those
entries — nothing from the prior table survives and nothing is merged. -/
theorem onPositionUpdate_full_replace (ps : Positions)
    (pairs : List (String × ℚ)) (hnd : (pairs.map Prod.fst).Nodup) :
    onPositionUpdate ps
      (PositionMsg.snapshot (pairs.map fun p => PosEntry.good p.1 p.2)) =
      pairs := by
  simpa [onPositionUpdate] using applyPosEntries_good pairs [] hnd (by simp)

/-- Witness for C6: a two-entry snapshot fully replaces a one-entry table
that mentioned a different instrument. -/
theorem onPositionUpdate_full_replace_witness :
    ((["BTC-PERPETUAL", "ETH-PERPETUAL"] : List String).Nodup) ∧
    onPositionUpdate [("SOL-PERPETUAL", 7)]
      (PositionMsg.snapshot
        ([("BTC-PERPETUAL", (3 : ℚ)), ("ETH-PERPETUAL", (5 : ℚ))].map
          fun p => PosEntry.good p.1 p.2)) =
      [("BTC-PERPETUAL", (3 : ℚ)), ("ETH-PERPETUAL", (5 : ℚ))] :=
  ⟨by decide,
   onPositionUpdate_full_replace [("SOL-PERPETUAL", 7)]
     [("BTC-PERPETUAL", 3), ("ETH-PERPETUAL", 5)] (by simp)⟩

/-- C4: ingestion is an idempotent replace — processing the same raw
message twice in succession (with clock readings `t1` then `t2`) leaves
the book cache in exactly the state of processing it once (at `t2`): the
stored book is rebuilt wholesale from the message and the local clock and
never depends on the previously cached state. -/
theorem processMessage_idempotent (s : MDState) (msg : MDMessage)
    (t1 t2 : ℕ) :
    (processMessage (processMessage s msg t1).1 msg t2).1 =
      (processMessage s msg t2).1 := by
  cases msg with
  | malformed => rfl
  | other => rfl
  | sub channel bids asks =>
      by_cases h : startsWithBook channel
      · obtain ⟨subs, books⟩ := s
        simp only [processMessage, h, if_true, MDState.mk.injEq, true_and]
        funext k
        by_cases hk : k = extractInstrument channel <;> simp [hk]
      · simp [processMessage, h]

/-- C8: `getOrderbook` on an instrument with no cached book (a never
subscribed one included) returns a book tagged with the queried instrument
whose bid and ask level lists are empty; it is a total pure query (`const`
in the source), so it cannot fail and leaves the cache untouched. -/
theorem getOrderbook_missing_empty (books : BookMap) (instrument : String)
    (h : books instrument = none) :
    (getOrderbook books instrument).instrument = instrument ∧
    (getOrderbook books instrument).bids = [] ∧
    (getOrderbook books instrument).asks = [] := by
  simp [getOrderbook, h]

/-- Witness for C8 on the empty cache and a concrete instrument. -/
theorem getOrderbook_missing_empty_witness :
    ((fun _ => none : BookMap) "BTC-PERPETUAL" = none) ∧
    ((getOrderbook (fun _ => none) "BTC-PERPETUAL").instrument =
        "BTC-PERPETUAL" ∧
     (getOrderbook (fun _ => none) "BTC-PERPETUAL").bids = [] ∧
     (getOrderbook (fun _ => none) "BTC-PERPETUAL").asks = []) :=
  ⟨rfl, getOrderbook_missing_empty (fun _ => none) "BTC-PERPETUAL" rfl⟩

/-- C10: the book cache is not restricted to subscribed instruments — for
a well-formed streaming update on channel `book.X.*` with X outside the
subscription list, `processMessage` still stores the rebuilt book for X,
hands it to the update callback, leaves the subscription list alone, and a
subsequent `getOrderbook X` returns that stored book (not an empty
one). -/
theorem processMessage_ignores_subscriptions (s : MDState) (channel : String)
    (bids asks : List LevelEntry) (t : ℕ) (X : String)
    (hX : X ∉ s.subscriptions)
    (hchan : startsWithBook channel = true)
    (hinst : extractInstrument channel = X) :
    (processMessage s (MDMessage.sub channel bids asks) t).1.orderbooks X =
      some { instrument := X, bids := collectLevels bids,
             asks := collectLevels asks, timestamp := t } ∧
    (processMessage s (MDMessage.sub channel bids asks) t).2 =
      some { instrument := X, bids := collectLevels bids,
             asks := collectLevels asks, timestamp := t } ∧
    getOrderbook
        (processMessage s (MDMessage.sub channel bids asks) t).1.orderbooks X =
      { instrument := X, bids := collectLevels bids,
        asks := collectLevels asks, timestamp := t } ∧
    (processMessage s (MDMessage.sub channel bids asks) t).1.subscriptions =
      s.subscriptions := by
  subst hinst
  refine ⟨?_, ?_, ?_, ?_⟩ <;> simp [processMessage, hchan, getOrderbook]

/-- Witness for C10: a `book.BTC-PERPETUAL.100ms` update arriving while
only ETH-PERPETUAL is subscribed. -/
theorem processMessage_ignores_subscriptions_witness :
    ("BTC-PERPETUAL" ∉ (MDState.mk ["ETH-PERPETUAL"] (fun _ => none)).subscriptions) ∧
    startsWithBook "book.BTC-PERPETUAL.100ms" = true ∧
    extractInstrument "book.BTC-PERPETUAL.100ms" = "BTC-PERPETUAL" ∧
    ((processMessage (MDState.mk ["ETH-PERPETUAL"] (fun _ => none))
        (MDMessage.sub "book.BTC-PERPETUAL.100ms"
          [LevelEntry.good 50000 3, LevelEntry.skipped] []) 11).1.orderbooks
        "BTC-PERPETUAL" =
      some { instrument := "BTC-PERPETUAL"
             bids := collectLevels [LevelEntry.good 50000 3, LevelEntry.skipped]
             asks := collectLevels []
             timestamp := 11 } ∧
     (processMessage (MDState.mk ["ETH-PERPETUAL"] (fun _ => none))
        (MDMessage.sub "book.BTC-PERPETUAL.100ms"
          [LevelEntry.good 50000 3, LevelEntry.skipped] []) 11).2 =
      some { instrument := "BTC-PERPETUAL"
             bids := collectLevels [LevelEntry.good 50000 3, LevelEntry.skipped]
             asks := collectLevels []
             timestamp := 11 } ∧
     getOrderbook
        ((processMessage (MDState.mk ["ETH-PERPETUAL"] (fun _ => none))
          (MDMessage.sub "book.BTC-PERPETUAL.100ms"
            [LevelEntry.good 50000 3, LevelEntry.skipped] []) 11).1.orderbooks)
        "BTC-PERPETUAL" =
      { instrument := "BTC-PERPETUAL"
        bids := collectLevels [LevelEntry.good 50000 3, LevelEntry.skipped]
        asks := collectLevels []
        timestamp := 11 } ∧
     (processMessage (MDState.mk ["ETH-PERPETUAL"] (fun _ => none))
        (MDMessage.sub "book.BTC-PERPETUAL.100ms"
          [LevelEntry.good 50000 3, LevelEntry.skipped] []) 11).1.subscriptions =
      (MDState.mk ["ETH-PERPETUAL"] (fun _ => none)).subscriptions) :=
  ⟨by decide, by decide, by decide,
   processMessage_ignores_subscriptions
     (MDState.mk ["ETH-PERPETUAL"] (fun _ => none)) "book.BTC-PERPETUAL.100ms"
     [LevelEntry.good 50000 3, LevelEntry.skipped] [] 11 "BTC-PERPETUAL"
     (by decide) (by decide) (by decide)⟩

end DeribitTrader
